import Mathlib

/-!
Shallow embedding of the core DSL of the ginkgo testing framework
(`core_dsl.go`): the suite run entry point `RunSpecs`, the failure
signalling primitives `Fail` / `Skip` / `AbortSuite` / `GinkgoRecover`,
and the declaration sugar `FDescribe` / `PDescribe` / `FIt` / `PIt`.

External collaborators (the tree executor `Suite`, `VetConfig`, the
parallel client's `Connect`, `os.Getwd`, the environment) are modelled
as an oracle record `RunEnv` supplying the results of those calls.
Side effects (prints to the error stream, interceptor shutdown, client
close, `os.Exit`) are recorded in an explicit trace of `Action`s, with
Go semantics: deferred calls run on a normal `return` but not on
`os.Exit`.
-/

namespace Ginkgo

/-- A captured source location; `skip` is the stack-frame skip passed to
`types.NewCodeLocationWithStackTrace`. -/
structure CodeLocation where
  skip : Nat
deriving Repr, DecidableEq

/-- A value carried by a Go panic: the framework-internal sentinel
produced by `types.GinkgoErrors.UncaughtGinkgoPanic`, or an arbitrary
user payload. -/
inductive PanicPayload where
  | uncaughtGinkgoPanic (cl : CodeLocation)
  | userPayload (tag : Nat)
deriving Repr, DecidableEq

/-- One observable step of the failure-signalling primitives: capturing a
code location, a write into the Failure Signal (`global.Failer`), or
raising the stack-unwinding panic. -/
inductive FailEvent where
  | captureLocation (skip : Nat)
  | failerFail (message : String) (cl : CodeLocation)
  | failerSkip (message : String) (cl : CodeLocation)
  | failerAbortSuite (message : String) (cl : CodeLocation)
  | failerPanicKind (cl : CodeLocation) (payload : PanicPayload)
  | panicRaise (payload : PanicPayload)
deriving Repr, DecidableEq

/-- Go: `skip := 0; if len(callerSkip) > 0 { skip = callerSkip[0] }`. -/
def resolveCallerSkip (callerSkip : List Nat) : Nat :=
  match callerSkip with
  | [] => 0
  | s :: _ => s

/-- `Skip(message string, callerSkip ...int)`: capture the location at
`skip+1`, record a Skip in the Failer, then panic with the sentinel. -/
def Skip (message : String) (callerSkip : List Nat) : List FailEvent :=
  let skip := resolveCallerSkip callerSkip
  let cl : CodeLocation := ⟨skip + 1⟩
  [FailEvent.captureLocation (skip + 1), FailEvent.failerSkip message cl,
   FailEvent.panicRaise (PanicPayload.uncaughtGinkgoPanic cl)]

/-- `Fail(message string, callerSkip ...int)`: capture the location at
`skip+1`, record a Fail in the Failer, then panic with the sentinel. -/
def Fail (message : String) (callerSkip : List Nat) : List FailEvent :=
  let skip := resolveCallerSkip callerSkip
  let cl : CodeLocation := ⟨skip + 1⟩
  [FailEvent.captureLocation (skip + 1), FailEvent.failerFail message cl,
   FailEvent.panicRaise (PanicPayload.uncaughtGinkgoPanic cl)]

/-- `AbortSuite(message string, callerSkip ...int)`: capture the location
at `skip+1`, record an AbortSuite in the Failer, then panic with the
sentinel. -/
def AbortSuite (message : String) (callerSkip : List Nat) : List FailEvent :=
  let skip := resolveCallerSkip callerSkip
  let cl : CodeLocation := ⟨skip + 1⟩
  [FailEvent.captureLocation (skip + 1), FailEvent.failerAbortSuite message cl,
   FailEvent.panicRaise (PanicPayload.uncaughtGinkgoPanic cl)]

/-- `GinkgoRecover()`: `e := recover(); if e != nil {
global.Failer.Panic(types.NewCodeLocationWithStackTrace(1), e) }`.
The argument is the value `recover()` yields: `none` when no panic is in
flight. -/
def GinkgoRecover (recovered : Option PanicPayload) : List FailEvent :=
  match recovered with
  | none => []
  | some e => [FailEvent.failerPanicKind ⟨1⟩ e]

/-- The fields of `types.SuiteConfig` that `core_dsl.go` reads. -/
structure SuiteConfig where
  parallelTotal : Nat
  parallelHost : String
  outputInterceptorMode : String
  timeout : Nat
deriving Repr, DecidableEq

/-- The fields of `types.ReporterConfig` that `core_dsl.go` reads;
`willGenerateReport` abstracts the external method
`reporterConfig.WillGenerateReport()`. -/
structure ReporterConfig where
  verbose : Bool
  willGenerateReport : Bool
deriving Repr, DecidableEq

/-- One variadic argument of `RunSpecs`, classified the way its
`switch arg := arg.(type)` does: a `types.SuiteConfig`, a
`types.ReporterConfig`, a `Labels` value, or anything else. -/
inductive RunSpecsArg where
  | suiteCfg (c : SuiteConfig)
  | reporterCfg (c : ReporterConfig)
  | labels (ls : List String)
  | unknown (tag : Nat)
deriving Repr, DecidableEq

/-- The Go errors `core_dsl.go` can print; flag-validation, tree-build
and working-directory errors come from external collaborators and are
kept abstract behind a numeric tag. -/
inductive GoError where
  | rerunningSuite
  | unknownTypePassedToRunSpecs (tag : Nat)
  | unreachableParallelHost (host : String)
  | vetConfigError (tag : Nat)
  | buildTreeError (tag : Nat)
  | getwdError (tag : Nat)
  | absError (tag : Nat)
deriving Repr, DecidableEq

/-- Which reporter `RunSpecs` selects: the console
`reporters.NewDefaultReporter` or `reporters.NoopReporter`. -/
inductive ReporterKind where
  | defaultReporter
  | noopReporter
deriving Repr, DecidableEq

/-- Which output interceptor `RunSpecs` installs. -/
inductive InterceptorKind where
  | noop
  | osGlobalReassigning
  | defaultInterceptor
deriving Repr, DecidableEq

/-- The two modes of `internal.Writer`. -/
inductive WriterMode where
  | streamAndBuffer
  | bufferOnly
deriving Repr, DecidableEq

/-- Oracle for the external collaborators `RunSpecs` calls into: the
result of `types.VetConfig`, of `client.Connect()`, of
`global.Suite.BuildTree()`, of `os.Getwd` / `filepath.Abs`, of
`global.Suite.Run` (passed, hasFocusedTests), the
`GINKGO_EDITOR_INTEGRATION` environment variable, and whether the
deprecation tracker recorded anything. -/
structure RunEnv where
  vetConfigErrors : List GoError
  connectSucceeds : Bool
  buildTreeError : Option GoError
  getwdError : Option GoError
  absError : Option GoError
  suitePassed : Bool
  suiteHasFocusedTests : Bool
  editorIntegrationEnv : String
  didTrackDeprecations : Bool
deriving Repr, DecidableEq

/-- The package-level mutable state of `core_dsl.go` that `RunSpecs`
reads and writes: `suiteDidRun`, `suiteConfig`, `reporterConfig`,
`outputInterceptor` (`none` = Go nil), `client` (`none` = Go nil,
otherwise the host it was created for), and the mode last set on the
`GinkgoWriter`. -/
structure GlobalState where
  suiteDidRun : Bool
  suiteConfig : SuiteConfig
  reporterConfig : ReporterConfig
  outputInterceptor : Option InterceptorKind
  client : Option String
  writerMode : Option WriterMode
deriving Repr, DecidableEq

/-- One observable side effect of `RunSpecs`, in program order. -/
inductive Action where
  | interceptorShutdown
  | clientClose
  | clientConnect (host : String)
  | printErr (e : GoError)
  | printConfigIssuesHeader
  | setWriterMode (m : WriterMode)
  | registerReportAfterSuiteNode
  | buildTree
  | suiteRun (description : String) (labels : List String)
      (reporter : ReporterKind) (interceptor : InterceptorKind)
  | printDeprecations
  | tFail
  | printPassFocused
deriving Repr, DecidableEq

/-- How `RunSpecs` terminates: `os.Exit code`, or a normal return of the
`passed` bool. -/
inductive RunOutcome where
  | exited (code : Nat)
  | returned (passed : Bool)
deriving Repr, DecidableEq

/-- `types.GINKGO_FOCUS_EXIT_CODE`. -/
def GINKGO_FOCUS_EXIT_CODE : Nat := 197

/-- The result of a `RunSpecs` call: how it terminated, the final
package-level state, the trace of side effects, and which reporter it
selected (`none` when termination preceded reporter selection). -/
structure RunResult where
  outcome : RunOutcome
  state : GlobalState
  trace : List Action
  selectedReporter : Option ReporterKind
deriving Repr, DecidableEq

/-- The cleanup prefix both `exitIfErr` and `exitIfErrors` perform before
printing: shut down the interceptor when non-nil, close the client when
non-nil. -/
def shutdownActions (st : GlobalState) : List Action :=
  (if st.outputInterceptor.isSome then [Action.interceptorShutdown] else []) ++
  (if st.client.isSome then [Action.clientClose] else [])

/-- The argument-classification loop of `RunSpecs` (lines 213-226): each
`SuiteConfig` replaces the suite config, each `ReporterConfig` replaces
the reporter config, each `Labels` is appended to the suite labels, and
every other argument appends an `UnknownTypePassedToRunSpecs` error. -/
def processArgs : List RunSpecsArg → SuiteConfig → ReporterConfig →
    List String → List GoError →
    SuiteConfig × ReporterConfig × List String × List GoError
  | [], sc, rc, ls, errs => (sc, rc, ls, errs)
  | RunSpecsArg.suiteCfg c :: rest, _, rc, ls, errs => processArgs rest c rc ls errs
  | RunSpecsArg.reporterCfg c :: rest, sc, _, ls, errs => processArgs rest sc c ls errs
  | RunSpecsArg.labels l :: rest, sc, rc, ls, errs =>
      processArgs rest sc rc (ls ++ l) errs
  | RunSpecsArg.unknown t :: rest, sc, rc, ls, errs =>
      processArgs rest sc rc ls (errs ++ [GoError.unknownTypePassedToRunSpecs t])

/-- The tags of the arguments the classification loop does not
recognize, in order. -/
def unknownTags : List RunSpecsArg → List Nat
  | [] => []
  | RunSpecsArg.unknown t :: rest => t :: unknownTags rest
  | _ :: rest => unknownTags rest

/-- Model of Go `strings.ToLower` on the ASCII range (the interceptor
mode values it is compared against are ASCII). -/
def lowerChar (c : Char) : Char :=
  if 65 ≤ c.toNat ∧ c.toNat ≤ 90 then Char.ofNat (c.toNat + 32) else c

/-- ASCII lowering of a whole string. -/
def strToLower (s : String) : String := ⟨s.data.map lowerChar⟩

/-- Model of Go `strings.TrimSpace`: drop leading and trailing
whitespace. -/
def trimSpace (s : String) : String :=
  ⟨((s.data.dropWhile Char.isWhitespace).reverse.dropWhile
      Char.isWhitespace).reverse⟩

/-- The three-way `switch strings.ToLower(suiteConfig.OutputInterceptorMode)`
of lines 245-252. -/
def interceptorForMode (mode : String) : InterceptorKind :=
  match strToLower mode with
  | "swap" => InterceptorKind.osGlobalReassigning
  | "none" => InterceptorKind.noop
  | _ => InterceptorKind.defaultInterceptor

/-- The writer-mode choice of lines 262-266: stream-and-buffer exactly
when verbose and solo, otherwise buffer-only. -/
def writerModeFor (rc : ReporterConfig) (sc : SuiteConfig) : WriterMode :=
  if rc.verbose ∧ sc.parallelTotal = 1 then WriterMode.streamAndBuffer
  else WriterMode.bufferOnly

/-- Lines 272-297 of `RunSpecs`: build the tree, resolve the working
directory, run the suite, shut down the interceptor, report
deprecations, fail the test host when the run failed, and either exit
with the focus sentinel or return normally.  Yields the outcome and the
actions these lines append to the trace; `deferredClose` says whether
`defer client.Close()` was registered (it runs only on the normal
return, not on `os.Exit`). -/
def runSpecsFinishCore (env : RunEnv) (st : GlobalState) (description : String)
    (suiteLabels : List String) (reporter : ReporterKind)
    (interceptor : InterceptorKind) (deferredClose : Bool) :
    RunOutcome × List Action :=
  match env.buildTreeError with
  | some e =>
      (RunOutcome.exited 1,
       Action.buildTree :: (shutdownActions st ++ [Action.printErr e]))
  | none =>
    match env.getwdError with
    | some e =>
        (RunOutcome.exited 1,
         Action.buildTree :: (shutdownActions st ++ [Action.printErr e]))
    | none =>
      match env.absError with
      | some e =>
          (RunOutcome.exited 1,
           Action.buildTree :: (shutdownActions st ++ [Action.printErr e]))
      | none =>
        let t := [Action.buildTree,
            Action.suiteRun description suiteLabels reporter interceptor,
            Action.interceptorShutdown]
        let t := t ++
            (if env.didTrackDeprecations then [Action.printDeprecations] else [])
        let t := t ++ (if env.suitePassed then [] else [Action.tFail])
        if env.suitePassed ∧ env.suiteHasFocusedTests ∧
            trimSpace env.editorIntegrationEnv = "" then
          (RunOutcome.exited GINKGO_FOCUS_EXIT_CODE, t ++ [Action.printPassFocused])
        else
          (RunOutcome.returned env.suitePassed,
           t ++ (if deferredClose then [Action.clientClose] else []))

/-- Lines 261-297 of `RunSpecs`: set the writer mode, register the
autogenerated-report node when needed, then finish the run via
`runSpecsFinishCore`. -/
def runSpecsMain (env : RunEnv) (st : GlobalState) (description : String)
    (suiteLabels : List String) (reporter : ReporterKind)
    (interceptor : InterceptorKind) (traceSoFar : List Action)
    (deferredClose : Bool) : RunResult :=
  let wm := writerModeFor st.reporterConfig st.suiteConfig
  let st := { st with writerMode := some wm }
  let t := traceSoFar ++ [Action.setWriterMode wm] ++
      (if st.reporterConfig.willGenerateReport then
        [Action.registerReportAfterSuiteNode] else [])
  let res := runSpecsFinishCore env st description suiteLabels reporter
      interceptor deferredClose
  { outcome := res.1, state := st, trace := t ++ res.2,
    selectedReporter := some reporter }

/-- Lines 238-259 of `RunSpecs` (the topology branch): solo runs get the
console reporter, a no-op interceptor and no client; parallel runs get
the no-op reporter, an interceptor chosen by the mode switch, and a
client whose failed `Connect` is fatal (after setting the client back to
nil so `exitIfErr` does not close it). -/
def runSpecsAfterVet (env : RunEnv) (st : GlobalState) (description : String)
    (suiteLabels : List String) : RunResult :=
  let sc := st.suiteConfig
  if sc.parallelTotal = 1 then
    let st := { st with outputInterceptor := some InterceptorKind.noop,
                        client := none }
    runSpecsMain env st description suiteLabels ReporterKind.defaultReporter
      InterceptorKind.noop [] false
  else
    let ic := interceptorForMode sc.outputInterceptorMode
    let st := { st with outputInterceptor := some ic,
                        client := some sc.parallelHost }
    if env.connectSucceeds then
      runSpecsMain env st description suiteLabels ReporterKind.noopReporter ic
        [Action.clientConnect sc.parallelHost] true
    else
      let st := { st with client := none }
      { outcome := RunOutcome.exited 1, state := st,
        trace := [Action.clientConnect sc.parallelHost] ++ shutdownActions st ++
          [Action.printErr (GoError.unreachableParallelHost sc.parallelHost)],
        selectedReporter := some ReporterKind.noopReporter }

/-- `RunSpecs(t, description, args...)`: reject a rerun via `exitIfErr`,
latch `suiteDidRun`, merge the variadic arguments, exit via
`exitIfErrors` when any argument was unrecognized, exit directly (no
cleanup) when `types.VetConfig` reports errors, then proceed to the
topology branch. -/
def RunSpecs (env : RunEnv) (st : GlobalState) (description : String)
    (args : List RunSpecsArg) : RunResult :=
  if st.suiteDidRun then
    { outcome := RunOutcome.exited 1, state := st,
      trace := shutdownActions st ++ [Action.printErr GoError.rerunningSuite],
      selectedReporter := none }
  else
    let st := { st with suiteDidRun := true }
    let merged := processArgs args st.suiteConfig st.reporterConfig [] []
    let suiteLabels := merged.2.2.1
    let configErrors := merged.2.2.2
    let st := { st with suiteConfig := merged.1, reporterConfig := merged.2.1 }
    if configErrors.isEmpty then
      if env.vetConfigErrors.isEmpty then
        runSpecsAfterVet env st description suiteLabels
      else
        { outcome := RunOutcome.exited 1, state := st,
          trace := Action.printConfigIssuesHeader ::
            env.vetConfigErrors.map Action.printErr,
          selectedReporter := none }
    else
      { outcome := RunOutcome.exited 1, state := st,
        trace := shutdownActions st ++ configErrors.map Action.printErr,
        selectedReporter := none }

/-- The node roles the claims touch. -/
inductive NodeType where
  | container
  | it
deriving Repr, DecidableEq

/-- One variadic argument of a declaration call (`Describe`-family,
`It`-family): a body callback, the `Focus` / `Pending` decorators, or
any other decorator value, kept abstract. -/
inductive NodeArg where
  | body (tag : Nat)
  | focus
  | pending
  | otherDecorator (tag : Nat)
deriving Repr, DecidableEq

/-- The call `internal.NewNode(deprecationTracker, nodeType, text,
args...)` as `core_dsl.go` issues it: `NewNode` lives outside this file
=> the record keeps exactly the arguments handed to it. -/
structure NodeCall where
  nodeType : NodeType
  text : String
  args : List NodeArg
deriving Repr, DecidableEq

/-- `pushNode` hands the constructed node to the tree builder; the model
observes the node pushed. -/
def pushNode (node : NodeCall) : NodeCall := node

/-- `Describe(text, args...)` pushes a Container node. -/
def Describe (text : String) (args : List NodeArg) : NodeCall :=
  pushNode { nodeType := NodeType.container, text := text, args := args }

/-- `FDescribe`: `args = append(args, internal.Focus)` then the same
Container push. -/
def FDescribe (text : String) (args : List NodeArg) : NodeCall :=
  pushNode { nodeType := NodeType.container, text := text,
             args := args ++ [NodeArg.focus] }

/-- `PDescribe`: `args = append(args, internal.Pending)` then the same
Container push. -/
def PDescribe (text : String) (args : List NodeArg) : NodeCall :=
  pushNode { nodeType := NodeType.container, text := text,
             args := args ++ [NodeArg.pending] }

/-- `var XDescribe = PDescribe`. -/
def XDescribe : String → List NodeArg → NodeCall := PDescribe

/-- `It(text, args...)` pushes an It node. -/
def It (text : String) (args : List NodeArg) : NodeCall :=
  pushNode { nodeType := NodeType.it, text := text, args := args }

/-- `FIt`: `args = append(args, internal.Focus)` then the same It push. -/
def FIt (text : String) (args : List NodeArg) : NodeCall :=
  pushNode { nodeType := NodeType.it, text := text,
             args := args ++ [NodeArg.focus] }

/-- `PIt`: `args = append(args, internal.Pending)` then the same It push. -/
def PIt (text : String) (args : List NodeArg) : NodeCall :=
  pushNode { nodeType := NodeType.it, text := text,
             args := args ++ [NodeArg.pending] }

/-- `var XIt = PIt`. -/
def XIt : String → List NodeArg → NodeCall := PIt

/-- The suite config in force after the argument-classification loop. -/
def mergedSuiteConfig (st : GlobalState) (args : List RunSpecsArg) : SuiteConfig :=
  (processArgs args st.suiteConfig st.reporterConfig [] []).1

/-- The reporter config in force after the argument-classification loop. -/
def mergedReporterConfig (st : GlobalState) (args : List RunSpecsArg) :
    ReporterConfig :=
  (processArgs args st.suiteConfig st.reporterConfig [] []).2.1

/-- The suite labels accumulated by the argument-classification loop. -/
def mergedLabels (st : GlobalState) (args : List RunSpecsArg) : List String :=
  (processArgs args st.suiteConfig st.reporterConfig [] []).2.2.1

/-- A solo-run suite config used in concrete evaluations. -/
def sc1 : SuiteConfig :=
  { parallelTotal := 1, parallelHost := "h", outputInterceptorMode := "",
    timeout := 0 }

/-- A two-process suite config used in concrete evaluations. -/
def sc2 : SuiteConfig :=
  { parallelTotal := 2, parallelHost := "h", outputInterceptorMode := "",
    timeout := 0 }

/-- A quiet reporter config used in concrete evaluations. -/
def rc0 : ReporterConfig := { verbose := false, willGenerateReport := false }

/-- A verbose reporter config used in concrete evaluations. -/
def rcV : ReporterConfig := { verbose := true, willGenerateReport := false }

/-- The package state at process start: nothing has run, interceptor and
client are nil. -/
def st0 : GlobalState :=
  { suiteDidRun := false, suiteConfig := sc1, reporterConfig := rc0,
    outputInterceptor := none, client := none, writerMode := none }

/-- The package state after a completed run (`suiteDidRun` latched). -/
def stDone : GlobalState := { st0 with suiteDidRun := true }

/-- An environment in which every external collaborator succeeds and the
suite passes with no focused tests. -/
def envOk : RunEnv :=
  { vetConfigErrors := [], connectSucceeds := true, buildTreeError := none,
    getwdError := none, absError := none, suitePassed := true,
    suiteHasFocusedTests := false, editorIntegrationEnv := "",
    didTrackDeprecations := false }

/-- Like `envOk` but flag validation reports one error. -/
def envVet : RunEnv := { envOk with vetConfigErrors := [GoError.vetConfigError 0] }

/-- Like `envOk` but the passed run left focused tests behind. -/
def envFocus : RunEnv := { envOk with suiteHasFocusedTests := true }

theorem processArgs_errs (args : List RunSpecsArg) : ∀ sc rc ls errs,
    (processArgs args sc rc ls errs).2.2.2 =
      errs ++ (unknownTags args).map GoError.unknownTypePassedToRunSpecs := by
  induction args with
  | nil => intro sc rc ls errs; simp [processArgs, unknownTags]
  | cons a rest ih =>
    intro sc rc ls errs
    cases a <;> simp [processArgs, unknownTags, ih]

theorem shutdownActions_cases (st : GlobalState) (a : Action)
    (h : a ∈ shutdownActions st) :
    a = Action.interceptorShutdown ∨ a = Action.clientClose := by
  unfold shutdownActions at h
  rcases List.mem_append.1 h with h1 | h1 <;> split at h1 <;> simp_all

theorem mem_shutdown_of_isSome (st : GlobalState)
    (h : st.outputInterceptor.isSome) :
    Action.interceptorShutdown ∈ shutdownActions st := by
  unfold shutdownActions
  simp [h]

theorem mem_close_of_isSome (st : GlobalState) (h : st.client.isSome) :
    Action.clientClose ∈ shutdownActions st := by
  unfold shutdownActions
  simp [h]

theorem connect_not_mem_shutdown (st : GlobalState) (host : String) :
    Action.clientConnect host ∉ shutdownActions st := by
  intro h
  rcases shutdownActions_cases st _ h with h1 | h1 <;> simp_all

theorem finishCore_shutdown (env : RunEnv) (st : GlobalState)
    (description : String) (suiteLabels : List String)
    (reporter : ReporterKind) (interceptor : InterceptorKind)
    (deferredClose : Bool) (h : st.outputInterceptor.isSome) :
    Action.interceptorShutdown ∈
      (runSpecsFinishCore env st description suiteLabels reporter interceptor
        deferredClose).2 := by
  obtain ⟨vet, conn, bte, gwe, abe, sp, shf, eie, dtd⟩ := env
  cases bte <;> cases gwe <;> cases abe <;>
    simp only [runSpecsFinishCore] <;> (try split) <;>
      simp [shutdownActions, h]

theorem finishCore_close (env : RunEnv) (st : GlobalState)
    (description : String) (suiteLabels : List String)
    (reporter : ReporterKind) (interceptor : InterceptorKind)
    (hc : st.client.isSome)
    (hout : (runSpecsFinishCore env st description suiteLabels reporter
        interceptor true).1 ≠ RunOutcome.exited GINKGO_FOCUS_EXIT_CODE) :
    Action.clientClose ∈
      (runSpecsFinishCore env st description suiteLabels reporter interceptor
        true).2 := by
  obtain ⟨vet, conn, bte, gwe, abe, sp, shf, eie, dtd⟩ := env
  cases bte <;> cases gwe <;> cases abe <;>
    simp only [runSpecsFinishCore] at hout ⊢ <;>
      (try (simp [shutdownActions, hc]; done))
  by_cases hcond : sp = true ∧ shf = true ∧ trimSpace eie = ""
  · rw [if_pos hcond] at hout
    exact absurd rfl hout
  · rw [if_neg hcond]
    simp

theorem finishCore_outcome (env : RunEnv) (st : GlobalState)
    (description : String) (suiteLabels : List String)
    (reporter : ReporterKind) (interceptor : InterceptorKind)
    (deferredClose : Bool)
    (hb : env.buildTreeError = none) (hg : env.getwdError = none)
    (ha : env.absError = none) (hp : env.suitePassed = true)
    (hf : env.suiteHasFocusedTests = true) :
    (runSpecsFinishCore env st description suiteLabels reporter interceptor
        deferredClose).1 =
      if trimSpace env.editorIntegrationEnv = "" then
        RunOutcome.exited GINKGO_FOCUS_EXIT_CODE
      else RunOutcome.returned true := by
  unfold runSpecsFinishCore
  simp only [hb, hg, ha, hp, hf]
  split <;> simp_all

theorem finishCore_no_connect (env : RunEnv) (st : GlobalState)
    (description : String) (suiteLabels : List String)
    (reporter : ReporterKind) (interceptor : InterceptorKind)
    (deferredClose : Bool) (host : String) :
    Action.clientConnect host ∉
      (runSpecsFinishCore env st description suiteLabels reporter interceptor
        deferredClose).2 := by
  obtain ⟨vet, conn, bte, gwe, abe, sp, shf, eie, dtd⟩ := env
  cases bte <;> cases gwe <;> cases abe <;>
    simp only [runSpecsFinishCore] <;> (try split) <;>
      simp [connect_not_mem_shutdown st host]

theorem runSpecsMain_state (env : RunEnv) (st : GlobalState)
    (description : String) (suiteLabels : List String)
    (reporter : ReporterKind) (interceptor : InterceptorKind)
    (traceSoFar : List Action) (deferredClose : Bool) :
    (runSpecsMain env st description suiteLabels reporter interceptor
        traceSoFar deferredClose).state =
      { st with
        writerMode :=
          some (writerModeFor st.reporterConfig st.suiteConfig) } := rfl

theorem runSpecsMain_reporter (env : RunEnv) (st : GlobalState)
    (description : String) (suiteLabels : List String)
    (reporter : ReporterKind) (interceptor : InterceptorKind)
    (traceSoFar : List Action) (deferredClose : Bool) :
    (runSpecsMain env st description suiteLabels reporter interceptor
        traceSoFar deferredClose).selectedReporter = some reporter := rfl

theorem runSpecsMain_trace (env : RunEnv) (st : GlobalState)
    (description : String) (suiteLabels : List String)
    (reporter : ReporterKind) (interceptor : InterceptorKind)
    (traceSoFar : List Action) (deferredClose : Bool) :
    (runSpecsMain env st description suiteLabels reporter interceptor
        traceSoFar deferredClose).trace =
      traceSoFar ++
        ([Action.setWriterMode (writerModeFor st.reporterConfig st.suiteConfig)] ++
          (if st.reporterConfig.willGenerateReport then
            [Action.registerReportAfterSuiteNode] else []) ++
          (runSpecsFinishCore env
            { st with
              writerMode :=
                some (writerModeFor st.reporterConfig st.suiteConfig) }
            description suiteLabels reporter interceptor deferredClose).2) := by
  unfold runSpecsMain
  simp [List.append_assoc]

theorem runSpecsMain_shutdown (env : RunEnv) (st : GlobalState)
    (description : String) (suiteLabels : List String)
    (reporter : ReporterKind) (interceptor : InterceptorKind)
    (traceSoFar : List Action) (deferredClose : Bool)
    (h : st.outputInterceptor.isSome) :
    Action.interceptorShutdown ∈
      (runSpecsMain env st description suiteLabels reporter interceptor
        traceSoFar deferredClose).trace := by
  rw [runSpecsMain_trace]
  refine List.mem_append.2 (Or.inr (List.mem_append.2 (Or.inr ?_)))
  exact finishCore_shutdown env _ description suiteLabels reporter interceptor
    deferredClose h

theorem runSpecsMain_close (env : RunEnv) (st : GlobalState)
    (description : String) (suiteLabels : List String)
    (reporter : ReporterKind) (interceptor : InterceptorKind)
    (traceSoFar : List Action)
    (hc : st.client.isSome)
    (hout : (runSpecsMain env st description suiteLabels reporter interceptor
        traceSoFar true).outcome ≠ RunOutcome.exited GINKGO_FOCUS_EXIT_CODE) :
    Action.clientClose ∈
      (runSpecsMain env st description suiteLabels reporter interceptor
        traceSoFar true).trace := by
  rw [runSpecsMain_trace]
  refine List.mem_append.2 (Or.inr (List.mem_append.2 (Or.inr ?_)))
  exact finishCore_close env _ description suiteLabels reporter interceptor
    hc hout

theorem runSpecsMain_outcome (env : RunEnv) (st : GlobalState)
    (description : String) (suiteLabels : List String)
    (reporter : ReporterKind) (interceptor : InterceptorKind)
    (traceSoFar : List Action) (deferredClose : Bool)
    (hb : env.buildTreeError = none) (hg : env.getwdError = none)
    (ha : env.absError = none) (hp : env.suitePassed = true)
    (hf : env.suiteHasFocusedTests = true) :
    (runSpecsMain env st description suiteLabels reporter interceptor
        traceSoFar deferredClose).outcome =
      if trimSpace env.editorIntegrationEnv = "" then
        RunOutcome.exited GINKGO_FOCUS_EXIT_CODE
      else RunOutcome.returned true := by
  unfold runSpecsMain
  exact finishCore_outcome env _ description suiteLabels reporter interceptor
    deferredClose hb hg ha hp hf

theorem runSpecsMain_connect_not_mem (env : RunEnv) (st : GlobalState)
    (description : String) (suiteLabels : List String)
    (reporter : ReporterKind) (interceptor : InterceptorKind)
    (traceSoFar : List Action) (deferredClose : Bool) (host : String)
    (h : Action.clientConnect host ∉ traceSoFar) :
    Action.clientConnect host ∉
      (runSpecsMain env st description suiteLabels reporter interceptor
        traceSoFar deferredClose).trace := by
  rw [runSpecsMain_trace]
  intro hmem
  rcases List.mem_append.1 hmem with h1 | h1
  · exact h h1
  · rcases List.mem_append.1 h1 with h2 | h2
    · rcases List.mem_append.1 h2 with h3 | h3
      · simp at h3
      · split at h3 <;> simp at h3
    · exact finishCore_no_connect env _ description suiteLabels reporter
        interceptor deferredClose host h2

theorem runSpecs_eq_afterVet (env : RunEnv) (st : GlobalState)
    (description : String) (args : List RunSpecsArg)
    (h1 : st.suiteDidRun = false) (h2 : unknownTags args = [])
    (h3 : env.vetConfigErrors = []) :
    RunSpecs env st description args =
      runSpecsAfterVet env
        { st with suiteDidRun := true,
                  suiteConfig := mergedSuiteConfig st args,
                  reporterConfig := mergedReporterConfig st args }
        description (mergedLabels st args) := by
  unfold RunSpecs
  simp [h1, h3, processArgs_errs, h2, mergedSuiteConfig, mergedReporterConfig,
    mergedLabels]

theorem runSpecsAfterVet_releases (env : RunEnv) (st : GlobalState)
    (description : String) (suiteLabels : List String) :
    ((runSpecsAfterVet env st description suiteLabels).state.outputInterceptor.isSome →
      Action.interceptorShutdown ∈
        (runSpecsAfterVet env st description suiteLabels).trace) ∧
    ((runSpecsAfterVet env st description suiteLabels).state.client.isSome →
      (runSpecsAfterVet env st description suiteLabels).outcome ≠
        RunOutcome.exited GINKGO_FOCUS_EXIT_CODE →
      Action.clientClose ∈
        (runSpecsAfterVet env st description suiteLabels).trace) := by
  unfold runSpecsAfterVet
  by_cases hpt : st.suiteConfig.parallelTotal = 1
  · rw [if_pos hpt]
    constructor
    · intro _
      exact runSpecsMain_shutdown _ _ _ _ _ _ _ _ rfl
    · intro hcl _
      rw [runSpecsMain_state] at hcl
      simp at hcl
  · rw [if_neg hpt]
    by_cases hconn : env.connectSucceeds = true
    · rw [if_pos hconn]
      constructor
      · intro _
        exact runSpecsMain_shutdown _ _ _ _ _ _ _ _ rfl
      · intro _ hout
        exact runSpecsMain_close _ _ _ _ _ _ _ rfl hout
    · rw [if_neg hconn]
      constructor
      · intro _
        refine List.mem_append.2 (Or.inl (List.mem_append.2 (Or.inr ?_)))
        exact mem_shutdown_of_isSome _ rfl
      · intro hcl _
        simp at hcl

theorem runSpecs_early_or_afterVet (env : RunEnv) (st : GlobalState)
    (description : String) (args : List RunSpecsArg) :
    ((RunSpecs env st description args).state.outputInterceptor =
        st.outputInterceptor ∧
     (RunSpecs env st description args).state.client = st.client) ∨
    RunSpecs env st description args =
      runSpecsAfterVet env
        { st with suiteDidRun := true,
                  suiteConfig := mergedSuiteConfig st args,
                  reporterConfig := mergedReporterConfig st args }
        description (mergedLabels st args) := by
  by_cases h0 : st.suiteDidRun = true
  · left
    constructor <;> simp [RunSpecs, h0]
  · have h0f : st.suiteDidRun = false := by
      revert h0
      cases st.suiteDidRun <;> simp
    by_cases h2 : unknownTags args = []
    · by_cases h3 : env.vetConfigErrors = []
      · right
        exact runSpecs_eq_afterVet env st description args h0f h2 h3
      · left
        constructor <;>
          simp [RunSpecs, h0f, processArgs_errs, h2, h3]
    · left
      constructor <;>
        simp [RunSpecs, h0f, processArgs_errs, h2]

/-- C1: calling `RunSpecs` a second time in the same process (the
`suiteDidRun` latch is already set) exits with status 1 after printing
the re-run error to the error stream, and performs no tree build and no
suite execution. -/
theorem c1_rerun_fails (env : RunEnv) (st : GlobalState)
    (description : String) (args : List RunSpecsArg)
    (h : st.suiteDidRun = true) :
    (RunSpecs env st description args).outcome = RunOutcome.exited 1 ∧
    Action.printErr GoError.rerunningSuite ∈
      (RunSpecs env st description args).trace ∧
    Action.buildTree ∉ (RunSpecs env st description args).trace ∧
    ∀ d l r i, Action.suiteRun d l r i ∉
      (RunSpecs env st description args).trace := by
  unfold RunSpecs
  rw [h]
  refine ⟨rfl, by simp, ?_, ?_⟩
  · intro hmem
    have h1 : Action.buildTree ∈ shutdownActions st := by simpa using hmem
    rcases shutdownActions_cases _ _ h1 with h2 | h2 <;> simp_all
  · intro d l r i hmem
    have h1 : Action.suiteRun d l r i ∈ shutdownActions st := by
      simpa using hmem
    rcases shutdownActions_cases _ _ h1 with h2 | h2 <;> simp_all

/-- C1 witness: a concrete second call, on the latched state, exits with
status 1. -/
theorem c1_rerun_fails_witness :
    stDone.suiteDidRun = true ∧
    (RunSpecs envOk stDone "suite" []).outcome = RunOutcome.exited 1 :=
  ⟨rfl, (c1_rerun_fails envOk stDone "suite" [] rfl).1⟩

/-- C3: `Fail`, `Skip` and `AbortSuite` each capture the source location
at the caller-supplied frame offset plus one, then write their kind
(Failure, Skip, AbortSuite) into the Failure Signal, and only then
raise the stack-unwinding panic carrying the framework sentinel: the
signal is recorded before the unwind begins. -/
theorem c3_signal_protocol (message : String) (callerSkip : List Nat) :
    Fail message callerSkip =
      [FailEvent.captureLocation (resolveCallerSkip callerSkip + 1),
       FailEvent.failerFail message ⟨resolveCallerSkip callerSkip + 1⟩,
       FailEvent.panicRaise
         (PanicPayload.uncaughtGinkgoPanic ⟨resolveCallerSkip callerSkip + 1⟩)] ∧
    Skip message callerSkip =
      [FailEvent.captureLocation (resolveCallerSkip callerSkip + 1),
       FailEvent.failerSkip message ⟨resolveCallerSkip callerSkip + 1⟩,
       FailEvent.panicRaise
         (PanicPayload.uncaughtGinkgoPanic ⟨resolveCallerSkip callerSkip + 1⟩)] ∧
    AbortSuite message callerSkip =
      [FailEvent.captureLocation (resolveCallerSkip callerSkip + 1),
       FailEvent.failerAbortSuite message ⟨resolveCallerSkip callerSkip + 1⟩,
       FailEvent.panicRaise
         (PanicPayload.uncaughtGinkgoPanic ⟨resolveCallerSkip callerSkip + 1⟩)] :=
  ⟨rfl, rfl, rfl⟩

/-- C4: a panic payload recovered by `GinkgoRecover` is forwarded into
the Failure Signal as a Panic-kind failure carrying the original
payload — never as a plain Failure. -/
theorem c4_recover_panic_kind (e : PanicPayload) :
    GinkgoRecover (some e) = [FailEvent.failerPanicKind ⟨1⟩ e] ∧
    ∀ m cl, FailEvent.failerFail m cl ∉ GinkgoRecover (some e) := by
  refine ⟨rfl, ?_⟩
  intro m cl
  simp [GinkgoRecover]

/-- C9: the focused and pending declaration variants are exactly the
base calls with the Focus (resp. Pending) decorator appended, with no
other difference. -/
theorem c9_sugar (text : String) (args : List NodeArg) :
    FDescribe text args = Describe text (args ++ [NodeArg.focus]) ∧
    PDescribe text args = Describe text (args ++ [NodeArg.pending]) ∧
    XDescribe text args = Describe text (args ++ [NodeArg.pending]) ∧
    FIt text args = It text (args ++ [NodeArg.focus]) ∧
    PIt text args = It text (args ++ [NodeArg.pending]) ∧
    XIt text args = It text (args ++ [NodeArg.pending]) :=
  ⟨rfl, rfl, rfl, rfl, rfl, rfl⟩

/-- C10: `GinkgoRecover` with no panic in flight writes nothing into the
Failure Signal and leaves all state unchanged. -/
theorem c10_recover_noop : GinkgoRecover none = [] := rfl

theorem shutdownActions_update (st : GlobalState) (sc : SuiteConfig)
    (rc : ReporterConfig) :
    shutdownActions
      { st with suiteDidRun := true, suiteConfig := sc,
                reporterConfig := rc } = shutdownActions st := by
  simp [shutdownActions]

theorem runSpecs_unknown_exit (env : RunEnv) (st : GlobalState)
    (description : String) (args : List RunSpecsArg)
    (h1 : st.suiteDidRun = false) (h2 : unknownTags args ≠ []) :
    RunSpecs env st description args =
      { outcome := RunOutcome.exited 1,
        state := { st with suiteDidRun := true,
                           suiteConfig := mergedSuiteConfig st args,
                           reporterConfig := mergedReporterConfig st args },
        trace := shutdownActions st ++
          (unknownTags args).map
            (fun t => Action.printErr (GoError.unknownTypePassedToRunSpecs t)),
        selectedReporter := none } := by
  unfold RunSpecs
  simp only [h1, Bool.false_eq_true, if_false]
  rw [show ({ st with suiteDidRun := true } : GlobalState).suiteConfig =
      st.suiteConfig from rfl,
    show ({ st with suiteDidRun := true } : GlobalState).reporterConfig =
      st.reporterConfig from rfl]
  rw [processArgs_errs args st.suiteConfig st.reporterConfig [] []]
  simp only [List.nil_append]
  rw [if_neg (by simp [h2])]
  rw [show shutdownActions { st with suiteDidRun := true,
                                     suiteConfig := (processArgs args st.suiteConfig st.reporterConfig [] []).1,
                                     reporterConfig := (processArgs args st.suiteConfig st.reporterConfig [] []).2.1 } =
    shutdownActions st from shutdownActions_update st _ _]
  simp [mergedSuiteConfig, mergedReporterConfig, List.map_map, Function.comp]

/-- C2 counterexample: a call with one unrecognized argument while flag
validation would also report an error prints only the unknown-argument
error and exits with status 1 — the flag-validation error is not
reported together with it, refuting the claim that unknown-argument
errors are reported together with flag-validation errors. -/
theorem c2_counterexample :
    (RunSpecs envVet st0 "suite" [RunSpecsArg.unknown 0]).trace =
      [Action.printErr (GoError.unknownTypePassedToRunSpecs 0)] ∧
    Action.printErr (GoError.vetConfigError 0) ∉
      (RunSpecs envVet st0 "suite" [RunSpecsArg.unknown 0]).trace ∧
    (RunSpecs envVet st0 "suite" [RunSpecsArg.unknown 0]).outcome =
      RunOutcome.exited 1 := by
  have h : (RunSpecs envVet st0 "suite" [RunSpecsArg.unknown 0]).trace =
      [Action.printErr (GoError.unknownTypePassedToRunSpecs 0)] := rfl
  refine ⟨h, ?_, rfl⟩
  rw [h]
  simp

/-- C2 amended: every unrecognized argument of a `RunSpecs` call is
collected, and all the unknown-type errors of the call are printed
together — never only the first — before a status-1 exit; that exit
happens before flag validation runs, so flag-validation errors are not
part of the same report. -/
theorem c2_unknown_args_reported (env : RunEnv) (st : GlobalState)
    (description : String) (args : List RunSpecsArg)
    (h1 : st.suiteDidRun = false) (h2 : unknownTags args ≠ []) :
    (RunSpecs env st description args).outcome = RunOutcome.exited 1 ∧
    (RunSpecs env st description args).trace =
      shutdownActions st ++
        (unknownTags args).map
          (fun t => Action.printErr (GoError.unknownTypePassedToRunSpecs t)) ∧
    ∀ t, Action.printErr (GoError.vetConfigError t) ∉
      (RunSpecs env st description args).trace := by
  rw [runSpecs_unknown_exit env st description args h1 h2]
  refine ⟨rfl, rfl, ?_⟩
  intro t hmem
  rcases List.mem_append.1 hmem with hm | hm
  · rcases shutdownActions_cases _ _ hm with h3 | h3 <;> simp_all
  · rcases List.mem_map.1 hm with ⟨a, _, ha⟩
    simp at ha

/-- C2 witness: two unrecognized arguments on a fresh state exit with
status 1 (and, by the theorem, both errors are printed together). -/
theorem c2_unknown_args_reported_witness :
    unknownTags [RunSpecsArg.unknown 0, RunSpecsArg.unknown 1] ≠ [] ∧
    (RunSpecs envVet st0 "suite"
      [RunSpecsArg.unknown 0, RunSpecsArg.unknown 1]).outcome =
      RunOutcome.exited 1 :=
  ⟨by decide,
   (c2_unknown_args_reported envVet st0 "suite"
     [RunSpecsArg.unknown 0, RunSpecsArg.unknown 1] rfl (by decide)).1⟩

/-- C5: the topology branch of `RunSpecs`.  Solo (total == 1): console
reporter, no-op interceptor, no client and no connection attempt.
Parallel (total > 1): no-op reporter, interceptor chosen by the
three-way mode switch (swap / none / default), a connection attempt to
the coordination endpoint, and a failed connection is fatal before any
suite execution. -/
theorem c5_topology (env : RunEnv) (st : GlobalState) (description : String)
    (args : List RunSpecsArg)
    (h1 : st.suiteDidRun = false) (h2 : unknownTags args = [])
    (h3 : env.vetConfigErrors = []) :
    ((mergedSuiteConfig st args).parallelTotal = 1 →
      (RunSpecs env st description args).selectedReporter =
        some ReporterKind.defaultReporter ∧
      (RunSpecs env st description args).state.outputInterceptor =
        some InterceptorKind.noop ∧
      (RunSpecs env st description args).state.client = none ∧
      ∀ host, Action.clientConnect host ∉
        (RunSpecs env st description args).trace) ∧
    (1 < (mergedSuiteConfig st args).parallelTotal →
      (RunSpecs env st description args).selectedReporter =
        some ReporterKind.noopReporter ∧
      (RunSpecs env st description args).state.outputInterceptor =
        some (interceptorForMode
          (mergedSuiteConfig st args).outputInterceptorMode) ∧
      Action.clientConnect (mergedSuiteConfig st args).parallelHost ∈
        (RunSpecs env st description args).trace ∧
      (env.connectSucceeds = false →
        (RunSpecs env st description args).outcome = RunOutcome.exited 1 ∧
        ∀ d l r i, Action.suiteRun d l r i ∉
          (RunSpecs env st description args).trace)) ∧
    (strToLower (mergedSuiteConfig st args).outputInterceptorMode = "swap" →
      interceptorForMode (mergedSuiteConfig st args).outputInterceptorMode =
        InterceptorKind.osGlobalReassigning) ∧
    (strToLower (mergedSuiteConfig st args).outputInterceptorMode = "none" →
      interceptorForMode (mergedSuiteConfig st args).outputInterceptorMode =
        InterceptorKind.noop) ∧
    (strToLower (mergedSuiteConfig st args).outputInterceptorMode ≠ "swap" →
      strToLower (mergedSuiteConfig st args).outputInterceptorMode ≠ "none" →
      interceptorForMode (mergedSuiteConfig st args).outputInterceptorMode =
        InterceptorKind.defaultInterceptor) := by
  rw [runSpecs_eq_afterVet env st description args h1 h2 h3]
  unfold runSpecsAfterVet
  refine ⟨?_, ?_, ?_, ?_, ?_⟩
  · intro hpt
    rw [if_pos hpt]
    refine ⟨rfl, rfl, rfl, ?_⟩
    intro host
    exact runSpecsMain_connect_not_mem _ _ _ _ _ _ _ _ host (by simp)
  · intro hpt
    have hne : ¬ (mergedSuiteConfig st args).parallelTotal = 1 := by omega
    rw [if_neg hne]
    by_cases hconn : env.connectSucceeds = true
    · rw [if_pos hconn]
      refine ⟨rfl, rfl, ?_, ?_⟩
      · rw [runSpecsMain_trace]
        simp
      · intro hcf
        rw [hcf] at hconn
        simp at hconn
    · rw [if_neg hconn]
      refine ⟨rfl, rfl, by simp, ?_⟩
      intro _
      refine ⟨rfl, ?_⟩
      intro d l r i hmem
      rcases List.mem_append.1 hmem with hm | hm
      · rcases List.mem_append.1 hm with hm2 | hm2
        · simp at hm2
        · rcases shutdownActions_cases _ _ hm2 with h4 | h4 <;> simp_all
      · simp at hm
  · intro hm
    unfold interceptorForMode
    rw [hm]
    rfl
  · intro hm
    unfold interceptorForMode
    rw [hm]
    rfl
  · intro hm1 hm2
    unfold interceptorForMode
    split <;> simp_all

/-- C5 witness: with a two-process config the no-op reporter is
selected. -/
theorem c5_topology_witness :
    st0.suiteDidRun = false ∧
    (RunSpecs envOk st0 "suite" [RunSpecsArg.suiteCfg sc2]).selectedReporter =
      some ReporterKind.noopReporter :=
  ⟨rfl,
   ((c5_topology envOk st0 "suite" [RunSpecsArg.suiteCfg sc2]
      rfl rfl rfl).2.1 (by decide)).1⟩

/-- C6: the writer is put into stream-and-buffer mode exactly when the
merged reporter config is verbose and the merged total of parallel
processes is 1; in every other combination (that reaches the writer
setup) it is put into buffer-only mode. -/
theorem c6_writer_mode (env : RunEnv) (st : GlobalState) (description : String)
    (args : List RunSpecsArg)
    (h1 : st.suiteDidRun = false) (h2 : unknownTags args = [])
    (h3 : env.vetConfigErrors = [])
    (h4 : (mergedSuiteConfig st args).parallelTotal ≠ 1 →
      env.connectSucceeds = true) :
    ((mergedReporterConfig st args).verbose = true ∧
        (mergedSuiteConfig st args).parallelTotal = 1 →
      (RunSpecs env st description args).state.writerMode =
        some WriterMode.streamAndBuffer) ∧
    (¬((mergedReporterConfig st args).verbose = true ∧
        (mergedSuiteConfig st args).parallelTotal = 1) →
      (RunSpecs env st description args).state.writerMode =
        some WriterMode.bufferOnly) := by
  rw [runSpecs_eq_afterVet env st description args h1 h2 h3]
  unfold runSpecsAfterVet
  by_cases hpt : (mergedSuiteConfig st args).parallelTotal = 1
  · rw [if_pos hpt]
    constructor
    · intro hvp
      show some (writerModeFor (mergedReporterConfig st args)
        (mergedSuiteConfig st args)) = some WriterMode.streamAndBuffer
      unfold writerModeFor
      rw [if_pos ⟨hvp.1, hvp.2⟩]
    · intro hnv
      show some (writerModeFor (mergedReporterConfig st args)
        (mergedSuiteConfig st args)) = some WriterMode.bufferOnly
      unfold writerModeFor
      rw [if_neg hnv]
  · rw [if_neg hpt]
    rw [if_pos (h4 hpt)]
    constructor
    · intro hvp
      exact absurd hvp.2 hpt
    · intro _
      show some (writerModeFor (mergedReporterConfig st args)
        (mergedSuiteConfig st args)) = some WriterMode.bufferOnly
      unfold writerModeFor
      rw [if_neg (fun hc => hpt hc.2)]

/-- C6 witness: a verbose reporter config on a solo run yields
stream-and-buffer mode. -/
theorem c6_writer_mode_witness :
    (mergedReporterConfig st0 [RunSpecsArg.reporterCfg rcV]).verbose = true ∧
    (RunSpecs envOk st0 "suite" [RunSpecsArg.reporterCfg rcV]).state.writerMode =
      some WriterMode.streamAndBuffer :=
  ⟨rfl,
   (c6_writer_mode envOk st0 "suite" [RunSpecsArg.reporterCfg rcV]
     rfl rfl rfl (fun _ => rfl)).1 ⟨rfl, rfl⟩⟩

/-- C7 counterexample: a passed parallel run that left focused tests
behind (editor marker unset) terminates through the focus-sentinel
`os.Exit`, which skips the deferred `client.Close()`: the client is
present yet never closed on this exit path, refuting the claim that the
client is closed on every exit path. -/
theorem c7_counterexample :
    (RunSpecs envFocus st0 "suite" [RunSpecsArg.suiteCfg sc2]).outcome =
      RunOutcome.exited GINKGO_FOCUS_EXIT_CODE ∧
    (RunSpecs envFocus st0 "suite" [RunSpecsArg.suiteCfg sc2]).state.client =
      some "h" ∧
    Action.clientClose ∉
      (RunSpecs envFocus st0 "suite" [RunSpecsArg.suiteCfg sc2]).trace := by
  have h : (RunSpecs envFocus st0 "suite" [RunSpecsArg.suiteCfg sc2]).trace =
      [Action.clientConnect "h",
       Action.setWriterMode WriterMode.bufferOnly,
       Action.buildTree,
       Action.suiteRun "suite" [] ReporterKind.noopReporter
         InterceptorKind.defaultInterceptor,
       Action.interceptorShutdown,
       Action.printPassFocused] := rfl
  refine ⟨rfl, rfl, ?_⟩
  rw [h]
  simp

/-- C7 amended: the interceptor, once created, is shut down on every
exit path, and the client, if present, is closed on every exit path
except the focus-sentinel exit, whose direct `os.Exit` skips the
deferred close. -/
theorem c7_releases (env : RunEnv) (st : GlobalState) (description : String)
    (args : List RunSpecsArg)
    (hi : st.outputInterceptor = none) (hc : st.client = none) :
    ((RunSpecs env st description args).state.outputInterceptor.isSome →
      Action.interceptorShutdown ∈ (RunSpecs env st description args).trace) ∧
    ((RunSpecs env st description args).state.client.isSome →
      (RunSpecs env st description args).outcome ≠
        RunOutcome.exited GINKGO_FOCUS_EXIT_CODE →
      Action.clientClose ∈ (RunSpecs env st description args).trace) := by
  rcases runSpecs_early_or_afterVet env st description args with ⟨he1, he2⟩ | heq
  · constructor
    · intro hsome
      rw [he1, hi] at hsome
      simp at hsome
    · intro hsome _
      rw [he2, hc] at hsome
      simp at hsome
  · rw [heq]
    exact runSpecsAfterVet_releases env _ description _

/-- C7 witness: on a concrete solo run the created interceptor is shut
down. -/
theorem c7_releases_witness :
    (RunSpecs envOk st0 "suite" []).state.outputInterceptor.isSome = true ∧
    Action.interceptorShutdown ∈ (RunSpecs envOk st0 "suite" []).trace :=
  ⟨rfl, (c7_releases envOk st0 "suite" [] rfl rfl).1 rfl⟩

/-- C8: when the suite completes with a passed result and focused tests
were present, `RunSpecs` exits with the focus sentinel code when the
editor-integration marker trims to empty, and returns the passed result
normally when the marker is set. -/
theorem c8_focus_exit (env : RunEnv) (st : GlobalState) (description : String)
    (args : List RunSpecsArg)
    (h1 : st.suiteDidRun = false) (h2 : unknownTags args = [])
    (h3 : env.vetConfigErrors = [])
    (h4 : (mergedSuiteConfig st args).parallelTotal = 1 ∨
      env.connectSucceeds = true)
    (hb : env.buildTreeError = none) (hg : env.getwdError = none)
    (ha : env.absError = none)
    (hp : env.suitePassed = true) (hf : env.suiteHasFocusedTests = true) :
    (trimSpace env.editorIntegrationEnv = "" →
      (RunSpecs env st description args).outcome =
        RunOutcome.exited GINKGO_FOCUS_EXIT_CODE) ∧
    (trimSpace env.editorIntegrationEnv ≠ "" →
      (RunSpecs env st description args).outcome =
        RunOutcome.returned true) := by
  rw [runSpecs_eq_afterVet env st description args h1 h2 h3]
  unfold runSpecsAfterVet
  by_cases hpt : (mergedSuiteConfig st args).parallelTotal = 1
  · rw [if_pos hpt]
    rw [runSpecsMain_outcome _ _ _ _ _ _ _ _ hb hg ha hp hf]
    constructor
    · intro he
      rw [if_pos he]
    · intro he
      rw [if_neg he]
  · rw [if_neg hpt]
    rw [if_pos (h4.resolve_left hpt)]
    rw [runSpecsMain_outcome _ _ _ _ _ _ _ _ hb hg ha hp hf]
    constructor
    · intro he
      rw [if_pos he]
    · intro he
      rw [if_neg he]

/-- C8 witness: a concrete passed-and-focused solo run with the marker
unset exits with the focus sentinel code. -/
theorem c8_focus_exit_witness :
    envFocus.suitePassed = true ∧ envFocus.suiteHasFocusedTests = true ∧
    (RunSpecs envFocus st0 "suite" []).outcome =
      RunOutcome.exited GINKGO_FOCUS_EXIT_CODE :=
  ⟨rfl, rfl,
   (c8_focus_exit envFocus st0 "suite" [] rfl rfl rfl (Or.inl rfl)
     rfl rfl rfl rfl rfl).1 rfl⟩

end Ginkgo
